import Mathlib

/-!
Verification of the alexo-task1-emulator device event pipeline.

Shallow embedding of the repository's core operations:
  * `src/emulator/devices/base.py` — `WebhookDevice` (event ingestion with
    webhook delivery and retry, `/subscribe` handler) and
    `CustomEventProtoDevice` (event ingestion into the sqlite store, and the
    binary query `serve` handler);
  * `src/emulator/devices/sensors.py` — the per-device-kind value coercion
    functions (`Temperature._value`, `Keyboard._value`);
  * `src/emulator/event_socket.py` — `EventSocketServer.serve`, the
    control-plane dispatcher;
  * `src/listen.py` — `runner`, the per-task supervisor.

Machine integers are modelled as `Nat`/`Int` with explicit bounds where the
Python `int.to_bytes` calls can overflow.  Python floats are carried
symbolically as `Rat` together with an abstract 32-bit image function standing
for `struct.pack('f', ·)` (the IEEE-754 bit computation is a stdlib external;
only the fact that it produces exactly 4 bytes matters here).
-/

namespace Emulator

/-- `n.to_bytes(k, 'big')` for `0 ≤ n < 256^k`: the `k` big-endian base-256
digits of `n`, most significant first. -/
def toBytesBE (k n : Nat) : List Nat :=
  (List.range k).map (fun i => n / 256 ^ (k - 1 - i) % 256)

/-- `int.from_bytes(l, 'big')` (accepts any length, as Python does). -/
def fromBytesBE (l : List Nat) : Nat :=
  l.foldl (fun a b => a * 256 + b) 0

/-- The protocol magic marker `b'\xde\xad\xbe\xef'`. -/
def magicBytes : List Nat := [0xde, 0xad, 0xbe, 0xef]

theorem toBytesBE_length (k n : Nat) : (toBytesBE k n).length = k := by
  simp [toBytesBE]

/-- `TValue = Union[str, int, float]` from `base.py`.  A Python float is
carried as the exact rational produced by the coercion arithmetic; its
single-precision bit image is abstracted (see `valueSegment`). -/
inductive TValue where
  | int (n : Int)
  | flt (q : Rat)
  | str (s : String)
  deriving DecidableEq

/-- UTF-8 encoding of one code point (the algorithm behind Python's
`str.encode('utf8')`), on the `Nat` code point. -/
def utf8EncodeCharNat (c : Nat) : List Nat :=
  if c < 0x80 then [c]
  else if c < 0x800 then
    [0xC0 ||| (c >>> 6), 0x80 ||| (c &&& 0x3F)]
  else if c < 0x10000 then
    [0xE0 ||| (c >>> 12), 0x80 ||| ((c >>> 6) &&& 0x3F), 0x80 ||| (c &&& 0x3F)]
  else
    [0xF0 ||| (c >>> 18), 0x80 ||| ((c >>> 12) &&& 0x3F),
     0x80 ||| ((c >>> 6) &&& 0x3F), 0x80 ||| (c &&& 0x3F)]

/-- `value.encode('utf8')` as a list of byte values. -/
def utf8Bytes (s : String) : List Nat :=
  s.data.flatMap (fun c => utf8EncodeCharNat c.toNat)

/-- Python `int(s)` restricted to the plain `[+-]?digits` forms (the only
forms the development evaluates it on); anything else is the `ValueError`
Python raises. -/
def parseIntPy (s : String) : Except String Int :=
  let chars := s.data
  let signed : Bool × List Char :=
    match chars with
    | c :: rest =>
      if c = '-' then (true, rest)
      else if c = '+' then (false, rest)
      else (false, chars)
    | [] => (false, [])
  if signed.2 ≠ [] ∧ signed.2.all Char.isDigit then
    let n : Nat := signed.2.foldl (fun a c => a * 10 + (c.toNat - 48)) 0
    .ok (if signed.1 then -(n : Int) else (n : Int))
  else
    .error ("invalid literal for int() with base 10: \x27" ++ s ++ "\x27")

namespace Temperature

/-- `Temperature._value` (sensors.py:18-23): `int(value)`, range check
`-500 ≤ v ≤ 500`, result `value/10` (a Python float, here the exact
rational). -/
def valueOf (s : String) : Except String TValue := do
  let v ← parseIntPy s
  if v < -500 ∨ v > 500 then
    .error "must be between -500 and 500"
  else
    .ok (.flt ((v : Rat) / 10))

end Temperature

namespace Keyboard

/-- `Keyboard._value` (sensors.py:26-28): the identity on strings. -/
def valueOf (s : String) : Except String TValue := .ok (.str s)

end Keyboard

/-- One row of the `events` table of a `CustomEventProtoDevice`
(base.py:211-217): `id integer primary key AUTOINCREMENT, ts integer,
value text`. -/
structure EventRow where
  id : Nat
  ts : Int
  value : String
  deriving DecidableEq

/-- The pull device's store: the `events` rows plus the sqlite AUTOINCREMENT
sequence (`seq` is the largest id ever assigned; AUTOINCREMENT never reuses
ids). -/
structure PullStore where
  seq : Nat
  rows : List EventRow
  deriving DecidableEq

/-- `CustomEventProtoDevice.event` (base.py:308-315): inserts
`(ts, str(value))` into `events` and returns `lastrowid`.  The dispatcher
always passes a `str` value, for which `str(value)` is the identity.  No
coercion function is in sight: the raw string is persisted unvalidated. -/
def pullEvent (st : PullStore) (ts : Int) (v : String) : PullStore × Nat :=
  let newId := st.seq + 1
  ({ seq := newId, rows := st.rows ++ [⟨newId, ts, v⟩] }, newId)

/-- The column names of the `events` table (base.py:211-217). -/
def eventsColumns : List String := ["id", "ts", "value"]

/-- The column named in the `WHERE` clause of `serve`'s SELECT
(base.py:258-264): the literal SQL text is `WHERE time >= ?` — `time` is the
name of the *index* created at base.py:218-220, not of any column. -/
def serveWhereColumn : String := "time"

/-- Stable insertion of a row into a list sorted ascending by `ts`. -/
def insertByTs (r : EventRow) : List EventRow → List EventRow
  | [] => [r]
  | x :: xs => if x.ts ≤ r.ts then x :: insertByTs r xs else r :: x :: xs

/-- `ORDER BY ts` (a stable ascending sort on `ts`). -/
def orderByTs : List EventRow → List EventRow
  | [] => []
  | x :: xs => insertByTs x (orderByTs xs)

/-- Execution of `serve`'s SELECT (base.py:258-265) under sqlite semantics:
the bare identifier in the `WHERE` clause must resolve to a column of
`events`; `id` and `ts` have INTEGER affinity and compare numerically with
the bound, a TEXT `value` compares greater than any integer (sqlite's type
ordering), and an unresolved name is an `OperationalError`
("no such column: …").  With `serveWhereColumn = "time"` only the error
branch is reachable. -/
def serveQuery (bound : Int) (rows : List EventRow) :
    Except String (List EventRow) :=
  if serveWhereColumn = "id" then
    .ok (orderByTs (rows.filter (fun r => bound ≤ (r.id : Int))))
  else if serveWhereColumn = "ts" then
    .ok (orderByTs (rows.filter (fun r => bound ≤ r.ts)))
  else if serveWhereColumn = "value" then
    .ok (orderByTs rows)
  else
    .error ("no such column: " ++ serveWhereColumn)

/-- The value part of one reply record (base.py:275-286): a 4-byte big-endian
length field followed by the value's encoding, with the bytes that were sent
before any `OverflowError` kept (each `conn.send` argument is evaluated just
before that send).  `f32` stands for `struct.pack('f', ·)`, the stdlib
single-precision image, as an arbitrary 32-bit word. -/
def valueSegment (f32 : Rat → Nat) : TValue → List Nat × Option String
  | .int n =>
    -- send((8).to_bytes(4)); send(value.to_bytes(8)) — the second to_bytes
    -- raises OverflowError after the length field has gone out.
    if 0 ≤ n ∧ n < (2 : Int) ^ 64 then
      (toBytesBE 4 8 ++ toBytesBE 8 n.toNat, none)
    else
      (toBytesBE 4 8, some "OverflowError")
  | .flt q =>
    -- send((8).to_bytes(4)); send(struct.pack('f', value)) — 4 payload bytes
    -- under a length field of 8.
    (toBytesBE 4 8 ++ toBytesBE 4 (f32 q % 2 ^ 32), none)
  | .str s =>
    -- b = value.encode('utf8'); send(len(b).to_bytes(4)); send(b)
    if (utf8Bytes s).length < 2 ^ 32 then
      (toBytesBE 4 (utf8Bytes s).length ++ utf8Bytes s, none)
    else
      ([], some "OverflowError")

/-- One iteration of the reply loop (base.py:269-286) for a single row:
coerce the stored raw value (`self._value`, may raise `ValueError`), then
send the id and timestamp as 8-byte big-endian integers, then the value
segment.  Returns the bytes actually sent and the exception, if any, that
aborted the iteration. -/
def sendRow (f32 : Rat → Nat) (coerce : String → Except String TValue)
    (r : EventRow) : List Nat × Option String :=
  match coerce r.value with
  | .error e => ([], some e)
  | .ok v =>
    if r.id < 2 ^ 64 then
      if 0 ≤ r.ts ∧ r.ts < (2 : Int) ^ 64 then
        let seg := valueSegment f32 v
        (toBytesBE 8 r.id ++ toBytesBE 8 r.ts.toNat ++ seg.1, seg.2)
      else
        -- ts.to_bytes(8) raised after the id bytes were sent
        (toBytesBE 8 r.id, some "OverflowError")
    else
      ([], some "OverflowError")

/-- The reply loop over all selected rows, aborting at the first exception
and keeping the bytes sent so far. -/
def sendRows (f32 : Rat → Nat) (coerce : String → Except String TValue) :
    List EventRow → List Nat × Option String
  | [] => ([], none)
  | r :: rs =>
    let first := sendRow f32 coerce r
    match first.2 with
    | some e => (first.1, some e)
    | none =>
      let rest := sendRows f32 coerce rs
      (first.1 ++ rest.1, rest.2)

/-- The three reads `serve` performs on a connection (base.py:235-244):
`recv(4)` for the magic marker, `recv(8)` for the timestamp bound, `recv(1)`
for the terminator.  `none` models the read raising `socket.timeout` under
the 3-second `settimeout`. -/
structure ConnInput where
  magic : Option (List Nat)
  tsB : Option (List Nat)
  term : Option (List Nat)
  deriving DecidableEq

/-- How a `serve` call ends: `closedSilent` — timeout or `ProtocolError`
handled inside `serve`, connection closed, `serve` returns normally;
`closedDone` — full reply written then closed; `closedRaised` — the generic
`except Exception` path: connection closed and the exception re-raised
(ending only that pool worker; the accept loop in `run` is a separate
greenlet and keeps serving either way). -/
inductive ServeOutcome where
  | closedSilent
  | closedDone
  | closedRaised
  deriving DecidableEq

/-- `CustomEventProtoDevice.serve` (base.py:229-293): the bytes written to
the connection and the way the handler ended. -/
def serve (f32 : Rat → Nat) (coerce : String → Except String TValue)
    (rows : List EventRow) (inp : ConnInput) : List Nat × ServeOutcome :=
  match inp.magic with
  | none => ([], .closedSilent)
  | some m =>
    if m = magicBytes then
      match inp.tsB with
      | none => ([], .closedSilent)
      | some tb =>
        let bound : Nat := fromBytesBE tb
        match inp.term with
        | none => ([], .closedSilent)
        | some t =>
          if t = [0] then
            match serveQuery (bound : Int) rows with
            | .error _ => ([], .closedRaised)
            | .ok sorted =>
              if sorted.length < 2 ^ 32 then
                -- send(magic); send(len(rows).to_bytes(4)); rows; send(b'\0')
                let head := magicBytes ++ toBytesBE 4 sorted.length
                let body := sendRows f32 coerce sorted
                match body.2 with
                | some _ => (head ++ body.1, .closedRaised)
                | none => (head ++ body.1 ++ [0], .closedDone)
              else
                -- len(rows).to_bytes(4) raised after the magic was sent
                (magicBytes, .closedRaised)
          else
            ([], .closedSilent)
    else
      ([], .closedSilent)

/-! ### WebhookDevice -/

/-- The JSON body POSTed to the callback (base.py:162-166):
`{'id': event_id, 'time': ts, 'value': value}` — `value` is the raw value as
received from the dispatcher, untouched by any coercion. -/
structure WebhookPayload where
  id : Int
  time : Int
  value : String
  deriving DecidableEq

/-- The persistent state `WebhookDevice.event` touches: the loaded
`callback_url` and the rows of the `event_id` table.  A fresh device has
`eventIdRows = []`: `__init__` only creates the (empty) table and nothing in
the repository ever INSERTs into it. -/
structure WebhookState where
  callback_url : Option String
  eventIdRows : List Int
  deriving DecidableEq

/-- What one `WebhookDevice.event` call did: the state left behind, the
delivery payload (absent when the call failed before building it), the number
of POST attempts, the `sleep` delays performed, and the returned id or the
`EventError` message raised. -/
structure WebhookResult where
  state : WebhookState
  payload : Option WebhookPayload
  attempts : Nat
  sleeps : List Nat
  result : Except String Int

/-- The send loop of `WebhookDevice.event` (base.py:170-199).  `send i` is
the outcome of the `requests.post` on attempt `i` (`none` = 2xx success,
`some e` = the failure reason: transport error or non-2xx).  Arguments:
attempt index, retries left.  Returns (attempts made, sleeps performed,
result). -/
def sendLoop (send : Nat → Option String) (eid : Int) :
    Nat → Nat → Nat × List Nat × Except String Int
  | i, 0 =>
    match send i with
    | none => (1, [], .ok eid)
    | some e => (1, [], .error e)
  | i, r + 1 =>
    match send i with
    | none => (1, [], .ok eid)
    | some _ =>
      let rest := sendLoop send eid (i + 1) r
      (rest.1 + 1, 5 :: rest.2.1, rest.2.2)

/-- `WebhookDevice.event` (base.py:149-199).  Without a subscription it
raises `EventError('No subscriptions')`.  Otherwise it reads the first
`event_id` row (`fetchone`), computes `row + 1` or `1`, runs
`UPDATE event_id SET id = ?` — which rewrites every existing row and, on the
empty table, no row at all — and then enters the send loop. -/
def webhookEvent (st : WebhookState) (ts : Int) (v : String) (retries : Nat)
    (send : Nat → Option String) : WebhookResult :=
  match st.callback_url with
  | none => ⟨st, none, 0, [], .error "No subscriptions"⟩
  | some _ =>
    let eid : Int :=
      match st.eventIdRows.head? with
      | some prev => prev + 1
      | none => 1
    let st2 : WebhookState :=
      { st with eventIdRows := st.eventIdRows.map (fun _ => eid) }
    let r := sendLoop send eid 0 retries
    ⟨st2, some ⟨eid, ts, v⟩, r.1, r.2.1, r.2.2⟩

/-! ### WebhookDevice `/subscribe` handler -/

/-- The fields of `urllib.parse.urlparse` the handler inspects. -/
structure UrlParts where
  scheme : String
  netloc : String
  deriving DecidableEq

/-- The subscription state: the rows of the `subscription` table and the
in-memory `callback_url`. -/
structure SubState where
  rows : List String
  callback_url : Option String
  deriving DecidableEq

/-- An HTTP response of the Flask handler. -/
structure HttpReply where
  code : Nat
  body : String
  deriving DecidableEq

/-- The `/subscribe` handler (base.py:105-140), parametrized by the stdlib
`urlparse` (an `.error` models `urlparse` itself raising).  `callback = none`
is a request without the `callback` query parameter.  On success the handler
runs `DELETE FROM subscription WHERE 1` then inserts the single new row, and
updates the in-memory `callback_url`. -/
def subscribe (parse : String → Except String UrlParts) (st : SubState)
    (callback : Option String) : SubState × HttpReply :=
  match callback with
  | none => (st, ⟨400, "Missing callback param"⟩)
  | some cb =>
    match parse cb with
    | .error e => (st, ⟨400, "Wrong callback format: " ++ e⟩)
    | .ok p =>
      if p.scheme = "" then
        (st, ⟨400, "Wrong callback format: No scheme"⟩)
      else if p.netloc = "" then
        (st, ⟨400, "Wrong callback format: No host"⟩)
      else
        (⟨[cb], some cb⟩, ⟨200, "OK"⟩)

/-! ### Control-plane dispatcher (`EventSocketServer.serve`) -/

/-- A parsed JSON value as far as the dispatcher's `isinstance` checks can
tell them apart; `other` carries the Python `repr` of anything that is
neither a string nor an int. -/
inductive JVal where
  | str (s : String)
  | int (n : Int)
  | other (rp : String)
  deriving DecidableEq

/-- The result of `json.loads` on the datagram: a dict (with unique keys, as
parsing guarantees) or some other value carrying its `repr`. -/
inductive JTop where
  | obj (fields : List (String × JVal))
  | notObj (rp : String)
  deriving DecidableEq

/-- Python `repr` of a `JVal`, used in the assertion messages. -/
def pyReprJV : JVal → String
  | .str s => "\x27" ++ s ++ "\x27"
  | .int n => toString n
  | .other rp => rp

/-- Python `repr` of the parsed datagram, used in the assertion messages. -/
def pyReprTop : JTop → String
  | .obj fs =>
    "\x7b" ++
      String.intercalate ", "
        (fs.map (fun p => "\x27" ++ p.1 ++ "\x27: " ++ pyReprJV p.2)) ++
      "\x7d"
  | .notObj rp => rp

/-- `data[k]` on the parsed dict (keys are unique after `json.loads`). -/
def jGet (fs : List (String × JVal)) (k : String) : Option JVal :=
  (fs.find? (fun p => p.1 = k)).map (·.2)

/-- How a `device.event(...)` call can come back to the dispatcher:
a returned id (`None` possible in the signature), a raised
`Device.EventError`, a raised `ValueError` (value coercion), or any other
exception. -/
inductive DevOutcome where
  | ok (id : Option Int)
  | eventError (msg : String)
  | valueError (msg : String)
  | exc (msg : String)

/-- The single reply datagram of one dispatcher exchange. -/
inductive Reply where
  | ok (id : Option Int)
  | err (msg : String)
  deriving DecidableEq

/-- `EventSocketServer.serve` (event_socket.py:76-117), parametrized by the
device table (its names) and by `devEvent`, the behaviour of
`device.event(ts, value, retries?)`.  Returns the reply sent plus the list of
`device.event` invocations actually made (empty = no store was read or
written by the request). -/
def dispatcherServe (devices : List String)
    (devEvent : String → Int → String → Option Int → DevOutcome)
    (data : JTop) : Reply × List (String × Int × String × Option Int) :=
  match data with
  | .notObj rp =>
    (.err ("wrong data received: Data is not a dict: " ++ rp), [])
  | .obj fs =>
    match jGet fs "dev_name" with
    | none =>
      (.err ("wrong data received: dev_name not set: " ++ pyReprTop (.obj fs)), [])
    | some dv =>
      match jGet fs "ts" with
      | none =>
        (.err ("wrong data received: ts not set: " ++ pyReprTop (.obj fs)), [])
      | some tv =>
        match jGet fs "value" with
        | none =>
          (.err ("wrong data received: value not set: " ++ pyReprTop (.obj fs)), [])
        | some vv =>
          match dv with
          | .str name =>
            match tv with
            | .int ts =>
              match vv with
              | .str v =>
                let go : Option Int →
                    Reply × List (String × Int × String × Option Int) :=
                  fun rtr =>
                    if name ∈ devices then
                      match devEvent name ts v rtr with
                      | .ok id => (.ok id, [(name, ts, v, rtr)])
                      | .eventError m => (.err m, [(name, ts, v, rtr)])
                      | .valueError m =>
                        (.err ("Wrong event data format: " ++ m),
                         [(name, ts, v, rtr)])
                      | .exc m =>
                        (.err ("Internal error: " ++ m), [(name, ts, v, rtr)])
                    else
                      (.err ("Unknown device " ++ name), [])
                match jGet fs "retries" with
                | none => go none
                | some (.int r) => go (some r)
                | some _ =>
                  (.err ("wrong data received: retries fmt: " ++
                    pyReprTop (.obj fs)), [])
              | _ =>
                (.err ("wrong data received: value fmt: " ++ pyReprTop (.obj fs)), [])
            | _ =>
              (.err ("wrong data received: ts fmt: " ++ pyReprTop (.obj fs)), [])
          | _ =>
            (.err ("wrong data received: dev_name fmt: " ++ pyReprTop (.obj fs)), [])

/-! ### Task runner (`listen.py`) -/

/-- How the supervised `f_run()` call ends: it returns, or it raises an
`Exception`. -/
inductive TaskOutcome where
  | returned
  | raised (msg : String)
  deriving DecidableEq

/-- The effect the runner has after `f_run()` ends.  `taskStop` is the
vocabulary of the specification (only this task terminates);
`processExit code` is `sys.exit(code)` — a `SystemExit`, which gevent
propagates out of the greenlet to the main greenlet, terminating the whole
process. -/
inductive RunnerEffect where
  | taskStop
  | processExit (code : Nat)
  deriving DecidableEq

/-- Whether the effect leaves every other task running. -/
def effectIsolatedToTask : RunnerEffect → Bool
  | .taskStop => true
  | .processExit _ => false

/-- `runner` (listen.py:40-50): log lines emitted and the resulting effect.
Both exit paths of `f_run()` reach `sys.exit(255)` (the `while True` never
iterates twice), so the runner always ends the process. -/
def runner (dName : String) : TaskOutcome → List String × RunnerEffect
  | .returned =>
    (["Starting " ++ dName, dName ++ " stopped. Exiting"], .processExit 255)
  | .raised _ =>
    (["Starting " ++ dName, "Exception in " ++ dName ++ " runtime:"],
     .processExit 255)

/-! ### Helper lemmas -/

/-- With a destination that always fails, the send loop started at attempt
`i` with `r` retries left makes `r + 1` attempts, sleeps 5 before each retry,
and raises the failure reason of the last attempt. -/
theorem sendLoop_allFail (send : Nat → Option String) (eid : Int)
    (f : Nat → String) (hf : ∀ i, send i = some (f i)) :
    ∀ r i, sendLoop send eid i r =
      (r + 1, List.replicate r 5, .error (f (i + r))) := by
  intro r
  induction r with
  | zero => intro i; simp [sendLoop, hf i]
  | succ r ih =>
    intro i
    have hr := ih (i + 1)
    simp only [sendLoop, hf i, hr]
    have : i + 1 + r = i + (r + 1) := by omega
    simp [this, List.replicate_succ]

/-- The SELECT of `serve` always fails: `time` is not a column of `events`. -/
theorem serveQuery_err (bound : Int) (rows : List EventRow) :
    serveQuery bound rows = .error "no such column: time" := rfl

/-! ### Claims -/

/-- C1: the claim says ids returned by successful ingestions are strictly
increasing by 1 from 1.  The pull device's AUTOINCREMENT store does behave
that way, but `WebhookDevice.event` does not: the `event_id` table starts
empty and `UPDATE event_id SET id = ?` matches zero rows (no INSERT ever
creates the counter row), so the counter never advances and every successful
webhook ingestion returns id 1.  This theorem evaluates the code at the
failing input: a fresh subscribed webhook device, two successful deliveries —
both return id 1 and the counter table is still empty. -/
theorem claim_C1_code_eval :
    (webhookEvent ⟨some "http://cb", []⟩ 10 "1" 0 (fun _ => none)).result =
      .ok 1 ∧
    (webhookEvent
        (webhookEvent ⟨some "http://cb", []⟩ 10 "1" 0 (fun _ => none)).state
        11 "2" 0 (fun _ => none)).result = .ok 1 ∧
    (webhookEvent ⟨some "http://cb", []⟩ 10 "1" 0
        (fun _ => none)).state.eventIdRows = [] :=
  ⟨rfl, rfl, rfl⟩

/-- C2: the claim says the Binary Query Server's query returns exactly the
events with `timestamp >= bound` sorted ascending.  In the code the SELECT is
`WHERE time >= ?`, but the `events` table has columns `id, ts, value` (`time`
is the name of an index), so sqlite raises "no such column: time" on every
request and `serve` aborts before sending a single reply byte.  Evaluated at
the spec's own round-trip example: store `[(1, 100, "42"), (2, 200,
"press")]`, bound 150. -/
theorem claim_C2_code_eval :
    serveQuery 150 [⟨1, 100, "42"⟩, ⟨2, 200, "press"⟩] =
      .error "no such column: time" ∧
    serve (fun _ => 0) Keyboard.valueOf [⟨1, 100, "42"⟩, ⟨2, 200, "press"⟩]
      ⟨some magicBytes, some (toBytesBE 8 150), some [0]⟩ =
      ([], .closedRaised) :=
  ⟨rfl, rfl⟩

/-- C3 counterexample: the claim says coercion is applied exactly once per
ingestion before storing, and an out-of-domain raw value is rejected with
nothing stored.  But `Temperature.valueOf "9999"` is out of domain
(9999 > 500), yet `CustomEventProtoDevice.event` — which never calls
`_value` — stores the raw row `(1, 1, "9999")` and returns id 1. -/
theorem claim_C3_counterexample :
    Temperature.valueOf "9999" = .error "must be between -500 and 500" ∧
    pullEvent ⟨0, []⟩ 1 "9999" = (⟨1, [⟨1, 1, "9999"⟩]⟩, 1) :=
  ⟨rfl, rfl⟩

/-- C3 amended: ingestion applies the coercion function zero times.  The pull
device's `event` persists the raw string unchanged (whatever the device
kind's coercion would say) and assigns the next id; the push device's `event`
delivers the raw string unchanged in the webhook payload.  Coercion runs only
on the pull device's reply path. -/
theorem claim_C3_amended (st : PullStore) (ts : Int) (v : String)
    (wst : WebhookState) (u : String) (ts2 : Int) (v2 : String) (r : Nat)
    (send : Nat → Option String) (hcb : wst.callback_url = some u) :
    (pullEvent st ts v).1.rows = st.rows ++ [⟨st.seq + 1, ts, v⟩] ∧
    (pullEvent st ts v).2 = st.seq + 1 ∧
    ∃ eid : Int,
      (webhookEvent wst ts2 v2 r send).payload = some ⟨eid, ts2, v2⟩ := by
  refine ⟨rfl, rfl, ?_⟩
  obtain ⟨cb, rows⟩ := wst
  simp only [WebhookState.callback_url] at hcb
  subst hcb
  exact ⟨_, rfl⟩

/-- C3 amended, witness: the amended statement evaluated at a pull store and
at a subscribed webhook device. -/
theorem claim_C3_amended_witness :
    (pullEvent ⟨0, []⟩ 5 "raw").1.rows = [] ++ [⟨1, 5, "raw"⟩] ∧
    (pullEvent ⟨0, []⟩ 5 "raw").2 = 1 ∧
    ∃ eid : Int,
      (webhookEvent ⟨some "http://cb", []⟩ 6 "x" 0 (fun _ => none)).payload =
        some ⟨eid, 6, "x"⟩ :=
  claim_C3_amended ⟨0, []⟩ 5 "raw" ⟨some "http://cb", []⟩ "http://cb" 6 "x" 0
    (fun _ => none) rfl

/-- C4: with an active subscription and a destination that always fails,
`WebhookDevice.event` with retry budget `N` attempts the POST exactly `N + 1`
times, sleeping 5 time-units between consecutive attempts, and raises
`EventError` carrying the failure reason of the last attempt. -/
theorem claim_C4_retry (st : WebhookState) (u : String) (ts : Int)
    (v : String) (N : Nat) (send : Nat → Option String) (f : Nat → String)
    (hcb : st.callback_url = some u) (hf : ∀ i, send i = some (f i)) :
    (webhookEvent st ts v N send).attempts = N + 1 ∧
    (webhookEvent st ts v N send).sleeps = List.replicate N 5 ∧
    (webhookEvent st ts v N send).result = .error (f N) := by
  obtain ⟨cb, rows⟩ := st
  simp only [WebhookState.callback_url] at hcb
  subst hcb
  simp only [webhookEvent, sendLoop_allFail send _ f hf N 0]
  simp

/-- C4 witness: `retries = 2` and an always-failing destination yield 3
attempts, two 5-unit sleeps, and the last failure reason. -/
theorem claim_C4_retry_witness :
    (webhookEvent ⟨some "http://cb", []⟩ 7 "v" 2 (fun _ => some "boom")).attempts = 3 ∧
    (webhookEvent ⟨some "http://cb", []⟩ 7 "v" 2 (fun _ => some "boom")).sleeps =
      List.replicate 2 5 ∧
    (webhookEvent ⟨some "http://cb", []⟩ 7 "v" 2 (fun _ => some "boom")).result =
      .error "boom" :=
  claim_C4_retry ⟨some "http://cb", []⟩ "http://cb" 7 "v" 2
    (fun _ => some "boom") (fun _ => "boom") rfl (fun _ => rfl)

/-- C5 counterexample: the claim says a task that exits is terminated
individually, other tasks unaffected.  But `runner` reaches `sys.exit(255)`
on both exit paths, and a `SystemExit` from a greenlet is propagated by
gevent to the main greenlet: the effect is a whole-process exit, not a
task-local stop — evaluated at a device task that returned. -/
theorem claim_C5_counterexample :
    (runner "[device d1]" .returned).2 = .processExit 255 ∧
    effectIsolatedToTask (runner "[device d1]" .returned).2 = false :=
  ⟨rfl, rfl⟩

/-- C5 amended: whenever one supervised task exits — by returning or raising
— the event is logged and `runner` calls `sys.exit(255)`, terminating the
whole process; no other task continues serving. -/
theorem claim_C5_amended (d : String) (o : TaskOutcome) :
    (runner d o).2 = .processExit 255 := by
  cases o <;> rfl

/-- C6: in every reply record, an integer value is sent as an 8-byte
big-endian integer under a length field of 8; a string value as its UTF-8
bytes under a length field equal to the actual byte count; a floating-point
value as a 4-byte single-precision payload while the length field is
nonetheless emitted as 8.  (`f32` is the abstract `struct.pack('f', ·)`
image; the structural facts hold for every such image.) -/
theorem claim_C6_encoding (f32 : Rat → Nat) :
    (∀ n : Int, 0 ≤ n → n < 2 ^ 64 →
      valueSegment f32 (.int n) = (toBytesBE 4 8 ++ toBytesBE 8 n.toNat, none) ∧
      (toBytesBE 8 n.toNat).length = 8) ∧
    (∀ q : Rat, ∃ payload,
      valueSegment f32 (.flt q) = (toBytesBE 4 8 ++ payload, none) ∧
      payload.length = 4) ∧
    (∀ s : String, (utf8Bytes s).length < 2 ^ 32 →
      valueSegment f32 (.str s) =
        (toBytesBE 4 (utf8Bytes s).length ++ utf8Bytes s, none)) := by
  refine ⟨?_, ?_, ?_⟩
  · intro n h0 h64
    refine ⟨?_, toBytesBE_length 8 _⟩
    simp only [valueSegment]
    rw [if_pos ⟨h0, h64⟩]
  · intro q
    exact ⟨toBytesBE 4 (f32 q % 2 ^ 32), rfl, toBytesBE_length 4 _⟩
  · intro s hs
    simp only [valueSegment]
    rw [if_pos hs]

/-- C6 witness: the three encodings evaluated at `5`, `1.0` and `"ab"`. -/
theorem claim_C6_encoding_witness :
    (valueSegment (fun _ => 0) (.int 5) =
        (toBytesBE 4 8 ++ toBytesBE 8 (5 : Int).toNat, none) ∧
      (toBytesBE 8 (5 : Int).toNat).length = 8) ∧
    (∃ payload, valueSegment (fun _ => 0) (.flt 1) =
        (toBytesBE 4 8 ++ payload, none) ∧ payload.length = 4) ∧
    valueSegment (fun _ => 0) (.str "ab") =
      (toBytesBE 4 (utf8Bytes "ab").length ++ utf8Bytes "ab", none) := by
  have h := claim_C6_encoding (fun _ => 0)
  exact ⟨h.1 5 (by decide) (by decide), h.2.1 1, h.2.2 "ab" (by decide)⟩

/-- C7: a malformed request — wrong 4-byte magic marker, or a terminator byte
other than `0x00` — or a timed-out read makes `serve` close the connection
having sent no reply bytes at all (in particular no reply magic marker), and
return normally (`closedSilent`), so the handler does not raise and the
accept loop keeps serving further connections. -/
theorem claim_C7_malformed (f32 : Rat → Nat)
    (coerce : String → Except String TValue) (rows : List EventRow)
    (inp : ConnInput)
    (h : inp.magic = none ∨ (∃ m, inp.magic = some m ∧ m ≠ magicBytes) ∨
      inp.tsB = none ∨ inp.term = none ∨
      (∃ t, inp.term = some t ∧ t ≠ [0])) :
    serve f32 coerce rows inp = ([], .closedSilent) := by
  obtain ⟨mg, tb, tm⟩ := inp
  simp only [ConnInput.magic, ConnInput.tsB, ConnInput.term] at h
  rcases mg with _ | m
  · rfl
  · by_cases hm : m = magicBytes
    · subst hm
      rcases tb with _ | tbv
      · simp [serve]
      · rcases tm with _ | tmv
        · simp [serve]
        · by_cases htm : tmv = [0]
          · exfalso
            subst htm
            rcases h with h | ⟨m2, hm2, hne⟩ | h | h | ⟨t, ht, hne⟩
            · exact Option.noConfusion h
            · exact hne (Option.some.inj hm2).symm
            · exact Option.noConfusion h
            · exact Option.noConfusion h
            · exact hne (Option.some.inj ht).symm
          · simp [serve, htm]
    · simp [serve, hm]

/-- C7 witness: a request with a wrong magic marker gets no reply bytes. -/
theorem claim_C7_malformed_witness :
    serve (fun _ => 0) Keyboard.valueOf [] ⟨some [0, 0, 0, 0], none, none⟩ =
      ([], .closedSilent) :=
  claim_C7_malformed _ _ _ _ (Or.inr (Or.inl ⟨[0, 0, 0, 0], rfl, by decide⟩))

/-- C8: a well-formed dispatcher request naming a device absent from the
device table gets the reply `{error: "Unknown device <name>"}` and no
device's `event` entry point — hence no store — is invoked. -/
theorem claim_C8_unknown (devices : List String)
    (devEvent : String → Int → String → Option Int → DevOutcome)
    (fs : List (String × JVal)) (name : String) (ts : Int) (v : String)
    (h1 : jGet fs "dev_name" = some (.str name))
    (h2 : jGet fs "ts" = some (.int ts))
    (h3 : jGet fs "value" = some (.str v))
    (h4 : jGet fs "retries" = none ∨
      ∃ r : Int, jGet fs "retries" = some (.int r))
    (h5 : name ∉ devices) :
    dispatcherServe devices devEvent (.obj fs) =
      (.err ("Unknown device " ++ name), []) := by
  rcases h4 with h4 | ⟨r, h4⟩ <;>
    simp [dispatcherServe, h1, h2, h3, h4, h5]

/-- C8 witness. -/
theorem claim_C8_unknown_witness :
    dispatcherServe ["t1"] (fun _ _ _ _ => .ok none)
      (.obj [("dev_name", .str "nope"), ("ts", .int 5), ("value", .str "x")]) =
      (.err ("Unknown device " ++ "nope"), []) :=
  claim_C8_unknown ["t1"] _ _ "nope" 5 "x" rfl rfl rfl (Or.inl rfl) (by decide)

/-- C9: the subscribe handler keeps at most one persisted callback at all
times: a callback whose parse lacks a scheme or a host (or fails to parse, or
is missing) is answered 400 with the subscription state untouched, while a
valid callback unconditionally replaces the stored subscription with the
single new row, so only the latest callback is ever delivered to. -/
theorem claim_C9_subscribe (parse : String → Except String UrlParts)
    (st : SubState) (cb : Option String) :
    (∀ u p, cb = some u → parse u = .ok p → p.scheme ≠ "" → p.netloc ≠ "" →
      subscribe parse st cb = (⟨[u], some u⟩, ⟨200, "OK"⟩)) ∧
    (∀ u p, cb = some u → parse u = .ok p → (p.scheme = "" ∨ p.netloc = "") →
      (subscribe parse st cb).1 = st ∧ (subscribe parse st cb).2.code = 400) ∧
    (∀ u e, cb = some u → parse u = .error e →
      (subscribe parse st cb).1 = st ∧ (subscribe parse st cb).2.code = 400) ∧
    (cb = none →
      (subscribe parse st cb).1 = st ∧ (subscribe parse st cb).2.code = 400) ∧
    (st.rows.length ≤ 1 → (subscribe parse st cb).1.rows.length ≤ 1) := by
  refine ⟨?_, ?_, ?_, ?_, ?_⟩
  · rintro u p rfl hp hs hn
    simp [subscribe, hp, hs, hn]
  · rintro u p rfl hp hsn
    rcases hsn with hs | hn
    · simp [subscribe, hp, hs]
    · by_cases hs : p.scheme = "" <;> simp [subscribe, hp, hs, hn]
  · rintro u e rfl hp
    simp [subscribe, hp]
  · rintro rfl
    simp [subscribe]
  · intro hlen
    rcases cb with _ | u
    · simpa [subscribe] using hlen
    · rcases hp : parse u with e | p
      · simpa [subscribe, hp] using hlen
      · by_cases hs : p.scheme = ""
        · simpa [subscribe, hp, hs] using hlen
        · by_cases hn : p.netloc = ""
          · simpa [subscribe, hp, hs, hn] using hlen
          · simp [subscribe, hp, hs, hn]

/-- C9 witness: a successful subscribe over an existing subscription replaces
it with the single new row. -/
theorem claim_C9_subscribe_witness :
    subscribe (fun _ => .ok ⟨"http", "h"⟩) ⟨["old"], some "old"⟩
        (some "http://h/x") =
      (⟨["http://h/x"], some "http://h/x"⟩, ⟨200, "OK"⟩) ∧
    (subscribe (fun _ => .ok ⟨"http", "h"⟩) ⟨["old"], some "old"⟩
        (some "http://h/x")).1.rows.length ≤ 1 := by
  have h := claim_C9_subscribe (fun _ => .ok ⟨"http", "h"⟩)
    ⟨["old"], some "old"⟩ (some "http://h/x")
  exact ⟨h.1 "http://h/x" ⟨"http", "h"⟩ rfl rfl (by decide) (by decide),
    h.2.2.2.2 (by decide)⟩

/-- C10 counterexample: the claim says that when a stored raw value fails
coercion, the server aborts mid-reply after the magic marker, the count and
the earlier records.  In fact, with an out-of-range Temperature value
`"9999"` stored, a well-formed query aborts with zero bytes sent — the SELECT
(`WHERE time >= ?`) fails before the reply begins, so not even the magic
marker goes out. -/
theorem claim_C10_counterexample :
    serve (fun _ => 0) Temperature.valueOf [⟨1, 100, "9999"⟩]
      ⟨some magicBytes, some (toBytesBE 8 0), some [0]⟩ = ([], .closedRaised) ∧
    ([] : List Nat).take 4 ≠ magicBytes :=
  ⟨rfl, by decide⟩

/-- C10 amended: the pull device's store does accept and persist any raw
value without validation (coercion would run only while writing the reply),
but every well-formed query fails before any reply byte is sent — the SELECT
references the nonexistent column `time` — so the connection closes with
nothing written and the handler raises; the described mid-reply abort after
the magic marker is unreachable, whatever is stored. -/
theorem claim_C10_amended (f32 : Rat → Nat)
    (coerce : String → Except String TValue) (rows : List EventRow)
    (tb : List Nat) (st : PullStore) (ts : Int) (v : String) :
    serve f32 coerce rows ⟨some magicBytes, some tb, some [0]⟩ =
      ([], .closedRaised) ∧
    (pullEvent st ts v).1.rows = st.rows ++ [⟨st.seq + 1, ts, v⟩] := by
  refine ⟨?_, rfl⟩
  simp [serve, serveQuery_err]

end Emulator
